import Mathlib

/-!
Verification of the flow-graph event/dataflow core and some material/XR
utilities of this Babylon.js fork.

The flow-graph implementation itself is exercised here only through its
test file, so the flow-graph definitions below are modelled from the
specification; the `MaterialFlags` class and the
`WebXRMotionControllerManager` class are embedded directly from the
source.
-/

/-! ## Flow-graph context and data-port values -/

/-- Modelled from the spec: the flow-graph implementation
(`FlowGraphContext` and its data-port value store) is not among the
source files, only its tests are.  A context holds per-execution mutable
state: context-scoped overrides for data input ports, stored by
`setValue` and consulted on read when no upstream connection exists. -/
structure FlowGraphContext (V : Type) where
  values : List (String × V)
deriving Repr

/-- Modelled from the spec: `setValue(value, context)` stores a
context-scoped override for the port in the context. -/
def setValue {V : Type} (c : FlowGraphContext V) (port : String) (v : V) :
    FlowGraphContext V :=
  { c with values := (port, v) :: c.values }

/-- Modelled from the spec: reading a data input through a context
resolves to the context-scoped override stored for that port, if any. -/
def getValue {V : Type} (c : FlowGraphContext V) (port : String) : Option V :=
  c.values.lookup port

theorem getValue_setValue {V : Type} (c : FlowGraphContext V)
    (port : String) (v : V) :
    getValue (setValue c port v) port = some v := by
  simp [getValue, setValue, List.lookup]

/-- C6: for every data input port, every context, and every value `v`,
`setValue v` on the port followed immediately by a read through the same
context returns exactly `v` (the very value stored, hence bit-for-bit
identical for numeric values). -/
theorem setValue_getValue_roundtrip {V : Type} (c : FlowGraphContext V)
    (port : String) (v : V) :
    getValue (setValue c port v) port = some v :=
  getValue_setValue c port v

/-! ## Data-port memoization -/

/-- Modelled from the spec: the flow-graph implementation is not among
the source files.  Within one triggered context, already-computed
data-port values are cached per context per activation; `computeCount`
counts how often an upstream compute function was invoked. -/
structure DataPortCache (V : Type) where
  cache : List (String × V)
  computeCount : Nat
deriving Repr, DecidableEq

/-- Modelled from the spec: reading a data output through a context
returns the cached value when present; otherwise it invokes the
upstream compute function once, caches the result and returns it. -/
def readOutput {V : Type} (c : DataPortCache V) (port : String) (compute : V) :
    DataPortCache V × V :=
  match c.cache.lookup port with
  | some w => (c, w)
  | none =>
      ({ cache := (port, compute) :: c.cache, computeCount := c.computeCount + 1 },
       compute)

/-- Modelled from the spec: `n` successive reads of the same data output
by downstream consumers during one propagation, all in the same
context. -/
def readMany {V : Type} (port : String) (compute : V) :
    Nat → DataPortCache V → DataPortCache V
  | 0, c => c
  | n + 1, c => readMany port compute n (readOutput c port compute).1

theorem readOutput_of_cached {V : Type} (c : DataPortCache V) (port : String)
    (v w : V) (h : c.cache.lookup port = some w) :
    readOutput c port v = (c, w) := by
  simp [readOutput, h]

theorem readMany_of_cached {V : Type} (port : String) (v w : V) :
    ∀ (n : Nat) (c : DataPortCache V), c.cache.lookup port = some w →
      readMany port v n c = c
  | 0, c, _ => rfl
  | n + 1, c, h => by
      rw [readMany, readOutput_of_cached c port v w h]
      exact readMany_of_cached port v w n c h

theorem readOutput_of_uncached {V : Type} (c : DataPortCache V) (port : String)
    (v : V) (h : c.cache.lookup port = none) :
    readOutput c port v =
      ({ cache := (port, v) :: c.cache, computeCount := c.computeCount + 1 }, v) := by
  simp [readOutput, h]

/-- C4: within one triggered context and one activation, a data block's
output compute function is invoked exactly once even when two or more
downstream readers each read it during the same propagation (the
compute counter rises by exactly 1 after `n ≥ 1` reads), and any
further read returns the cached value without re-invoking the upstream
computation. -/
theorem data_output_memoized {V : Type} (c : DataPortCache V) (port : String)
    (v : V) (n : Nat) (hu : c.cache.lookup port = none) (hn : 1 ≤ n) :
    (readMany port v n c).computeCount = c.computeCount + 1 ∧
    readOutput (readMany port v n c) port v = (readMany port v n c, v) := by
  obtain ⟨m, rfl⟩ : ∃ m, n = m + 1 := ⟨n - 1, (Nat.succ_pred_eq_of_pos hn).symm⟩
  have hstep : readMany port v (m + 1) c =
      readMany port v m
        { cache := (port, v) :: c.cache, computeCount := c.computeCount + 1 } := by
    rw [readMany, readOutput_of_uncached c port v hu]
  have hcached :
      (({ cache := (port, v) :: c.cache,
          computeCount := c.computeCount + 1 } : DataPortCache V)).cache.lookup port
        = some v := by
    simp [List.lookup]
  rw [hstep, readMany_of_cached port v v m _ hcached]
  exact ⟨rfl, readOutput_of_cached _ port v v hcached⟩

/-- Concrete run of `data_output_memoized`: two readers of port
`testData` in a fresh context invoke the computation exactly once, and a
third read still returns the cached value. -/
theorem data_output_memoized_witness :
    (readMany "testData" (42 : Nat) 2 ⟨[], 0⟩).computeCount = 0 + 1 ∧
    readOutput (readMany "testData" (42 : Nat) 2 ⟨[], 0⟩) "testData" 42 =
      (readMany "testData" (42 : Nat) 2 ⟨[], 0⟩, 42) :=
  data_output_memoized ⟨[], 0⟩ "testData" 42 2 rfl (by decide)

/-! ## Custom events across graphs of one coordinator -/

/-- Modelled from the spec: the flow-graph implementation is not among
the source files.  A `FlowGraphReceiveCustomEventBlock` is identified by
its `eventId` and declares a map of named typed data fields
(`eventData`); it is armed once its graph has started. -/
structure FlowGraphReceiveCustomEventBlock where
  eventId : String
  eventDataKeys : List String
  armed : Bool
deriving Repr, DecidableEq

/-- Modelled from the spec: a graph owns a set of event blocks which act
as entry points. -/
structure FlowGraphGraph where
  eventBlocks : List FlowGraphReceiveCustomEventBlock
deriving Repr, DecidableEq

/-- Modelled from the spec: a coordinator owns zero or more graphs and
fans custom events out to all of them. -/
structure FlowGraphCoordinator where
  graphs : List FlowGraphGraph
deriving Repr, DecidableEq

/-- Modelled from the spec: a `FlowGraphSendCustomEventBlock` is
identified by its `eventId` and declares named typed data input
fields. -/
structure FlowGraphSendCustomEventBlock where
  eventId : String
  eventDataKeys : List String
deriving Repr, DecidableEq

/-- Modelled from the spec: one firing of a receive block caused by a
custom-event dispatch — the block fires its `done` execution output and
exposes the deserialized fields on its matching named data outputs. -/
structure CustomEventFiring (V : Type) where
  block : FlowGraphReceiveCustomEventBlock
  doneFired : Bool
  outputs : List (String × V)
deriving Repr, DecidableEq

/-- Modelled from the spec: sending dispatches to a coordinator-scoped
channel keyed by `eventId`; every armed receive block with matching
`eventId`, on any graph, deserializes the payload into its matching
named data outputs and fires its `done` execution output. -/
def sendCustomEvent {V : Type} (coord : FlowGraphCoordinator)
    (eventId : String) (fields : List (String × V)) : List (CustomEventFiring V) :=
  coord.graphs.flatMap fun g =>
    (g.eventBlocks.filter fun b => b.armed && b.eventId == eventId).map fun b =>
      { block := b
        doneFired := true
        outputs := fields.filter fun f => b.eventDataKeys.contains f.1 }

/-- Modelled from the spec: activating a send block serializes the
current values of its declared data inputs from the active context and
dispatches them on the coordinator-scoped channel for its `eventId`. -/
def activateSendBlock {V : Type} (coord : FlowGraphCoordinator)
    (send : FlowGraphSendCustomEventBlock) (ctx : FlowGraphContext V) :
    List (CustomEventFiring V) :=
  sendCustomEvent coord send.eventId
    (send.eventDataKeys.filterMap fun k => (getValue ctx k).map fun v => (k, v))

/-- C1: for two graphs `g1` (holding the sender) and `g2` registered
under the same coordinator, activating a send block with event id `E`
and declared data field `x` set to `v` via `setValue` in a context makes
every armed receive block with matching event id `E` — here the one on
`g2` — fire its `done` execution output and expose `v` on its named data
output `x`, regardless of which graphs the sender and receiver belong
to. -/
theorem custom_event_cross_graph {V : Type} (coord : FlowGraphCoordinator)
    (g1 g2 : FlowGraphGraph) (recv : FlowGraphReceiveCustomEventBlock)
    (send : FlowGraphSendCustomEventBlock) (ctx : FlowGraphContext V)
    (E x : String) (v : V)
    (hg1 : g1 ∈ coord.graphs) (hg2 : g2 ∈ coord.graphs)
    (hrecv : recv ∈ g2.eventBlocks) (harmed : recv.armed = true)
    (hrid : recv.eventId = E) (hrkey : recv.eventDataKeys.contains x = true)
    (hsid : send.eventId = E) (hskey : send.eventDataKeys = [x]) :
    ∃ f ∈ activateSendBlock coord send (setValue ctx x v),
      f.block = recv ∧ f.doneFired = true ∧ f.outputs.lookup x = some v := by
  have hx : x ∈ recv.eventDataKeys := by simpa using hrkey
  have hfields :
      (send.eventDataKeys.filterMap fun k =>
        (getValue (setValue ctx x v) k).map fun w => (k, w)) = [(x, v)] := by
    rw [hskey]
    simp [getValue_setValue]
  refine ⟨{ block := recv, doneFired := true,
            outputs := [(x, v)].filter fun f => recv.eventDataKeys.contains f.1 },
          ?_, rfl, rfl, ?_⟩
  · unfold activateSendBlock sendCustomEvent
    rw [hfields, List.mem_flatMap]
    exact ⟨g2, hg2, List.mem_map.mpr
      ⟨recv, List.mem_filter.mpr ⟨hrecv, by simp [harmed, hrid, hsid]⟩, rfl⟩⟩
  · simp [List.filter, List.lookup, hx]

/-- Concrete run of `custom_event_cross_graph`, mirroring the repository
test: a sender graph and a receiver graph under one coordinator, event
id `testEvent`, field `testData` set to `0.42`-like numeric payload
`42`; the armed receiver fires `done` and outputs the value. -/
theorem custom_event_cross_graph_witness :
    ∃ f ∈ activateSendBlock (V := Nat)
        { graphs := [{ eventBlocks := [] },
                     { eventBlocks := [{ eventId := "testEvent",
                                         eventDataKeys := ["testData"],
                                         armed := true }] }] }
        { eventId := "testEvent", eventDataKeys := ["testData"] }
        (setValue { values := [] } "testData" 42),
      f.block = { eventId := "testEvent", eventDataKeys := ["testData"],
                  armed := true } ∧
      f.doneFired = true ∧ f.outputs.lookup "testData" = some 42 :=
  custom_event_cross_graph
    { graphs := [{ eventBlocks := [] },
                 { eventBlocks := [{ eventId := "testEvent",
                                     eventDataKeys := ["testData"],
                                     armed := true }] }] }
    { eventBlocks := [] }
    { eventBlocks := [{ eventId := "testEvent", eventDataKeys := ["testData"],
                        armed := true }] }
    { eventId := "testEvent", eventDataKeys := ["testData"], armed := true }
    { eventId := "testEvent", eventDataKeys := ["testData"] }
    { values := [] } "testEvent" "testData" 42
    (by simp) (by simp) (by simp) rfl rfl (by decide) rfl rfl

/-! ## Mesh-pick event bubbling -/

/-- Modelled from the spec: the mesh hierarchy seen by the flow graph —
each node carries an id and a `parent` back-reference the core walks for
bubbling (the core never mutates the hierarchy). -/
inductive Mesh where
  | root (id : Nat)
  | child (id : Nat) (parent : Mesh)
deriving Repr, DecidableEq

/-- The id of a mesh node. -/
def Mesh.id : Mesh → Nat
  | .root i => i
  | .child i _ => i

/-- Modelled from the spec: the parent chain of a mesh, picked mesh
first, then its ancestors walking up until the chain is exhausted. -/
def parentChain : Mesh → List Nat
  | .root i => [i]
  | .child i p => i :: parentChain p

/-- Modelled from the spec: a `FlowGraphMeshPickEventBlock` is armed
with a target-mesh reference. -/
structure FlowGraphMeshPickEventBlock where
  name : String
  targetMeshId : Nat
deriving Repr, DecidableEq

/-- Modelled from the spec: on a pick notification hitting mesh `M`, a
pick block fires if its target equals `M` or is an ancestor of `M`; the
block bound to the picked mesh fires first, then blocks bound to its
ancestors in parent-chain order. -/
def meshPickDispatch (blocks : List FlowGraphMeshPickEventBlock)
    (picked : Mesh) : List FlowGraphMeshPickEventBlock :=
  (parentChain picked).flatMap fun mid =>
    blocks.filter fun b => b.targetMeshId == mid

/-- C2: for the parent chain mesh1 ← mesh2 ← mesh3 with pick blocks
bound to mesh1 and mesh3 only, a pick notification hitting mesh3
dispatches mesh3's block first and mesh1's block second and never
dispatches anything for mesh2; and in general, on picking a mesh with a
parent, the blocks bound to the picked mesh are dispatched first,
followed by the dispatch for the parent chain above it. -/
theorem mesh_pick_bubbling :
    (meshPickDispatch
        [{ name := "MeshPick1", targetMeshId := 1 },
         { name := "MeshPick3", targetMeshId := 3 }]
        (Mesh.child 3 (Mesh.child 2 (Mesh.root 1))) =
      [{ name := "MeshPick3", targetMeshId := 3 },
       { name := "MeshPick1", targetMeshId := 1 }]) ∧
    ∀ (blocks : List FlowGraphMeshPickEventBlock) (i : Nat) (p : Mesh),
      meshPickDispatch blocks (Mesh.child i p) =
        (blocks.filter fun b => b.targetMeshId == i) ++ meshPickDispatch blocks p := by
  constructor
  · decide
  · intro blocks i p
    rfl

/-! ## Scene-ready event block -/

/-- Modelled from the spec: the per-graph state of a
`FlowGraphSceneReadyEventBlock` together with the scene's ready signal —
`armed` is set by graph start, `fired` remembers whether `done` has
already fired in this scene lifetime, `fireCount` counts the `done`
firings. -/
structure SceneReadyState where
  sceneReady : Bool
  armed : Bool
  fired : Bool
  fireCount : Nat
deriving Repr, DecidableEq

/-- Modelled from the spec: the external happenings a scene-ready block
reacts to — the graph's `start()` arming the block, and the scene-ready
signal arriving. -/
inductive SceneReadyEvent where
  | graphStart
  | sceneBecomesReady
deriving Repr, DecidableEq

/-- Modelled from the spec: `done` fires at most once — firing marks the
block as fired. -/
def fireSceneReady (s : SceneReadyState) : SceneReadyState :=
  if s.fired then s else { s with fired := true, fireCount := s.fireCount + 1 }

/-- Modelled from the spec: arming on graph start fires immediately when
the scene already reports ready (no missed-event race); the scene-ready
signal fires every armed, not-yet-fired block. -/
def sceneReadyStep (s : SceneReadyState) : SceneReadyEvent → SceneReadyState
  | .graphStart =>
      let s' := { s with armed := true }
      if s'.sceneReady then fireSceneReady s' else s'
  | .sceneBecomesReady =>
      let s' := { s with sceneReady := true }
      if s'.armed then fireSceneReady s' else s'

/-- Modelled from the spec: a whole scene lifetime, as a sequence of
happenings folded over the block state. -/
def sceneReadyRun (s : SceneReadyState) : List SceneReadyEvent → SceneReadyState
  | [] => s
  | e :: es => sceneReadyRun (sceneReadyStep s e) es

/-- A fresh graph's scene-ready block state before any happening. -/
def sceneReadyInit : SceneReadyState :=
  { sceneReady := false, armed := false, fired := false, fireCount := 0 }

theorem sceneReadyStep_invariant (s : SceneReadyState)
    (h : s.fireCount = if s.fired then 1 else 0) (e : SceneReadyEvent) :
    (sceneReadyStep s e).fireCount = if (sceneReadyStep s e).fired then 1 else 0 := by
  cases e <;> simp only [sceneReadyStep, fireSceneReady] <;> split <;>
    (split at h <;> simp_all)

theorem sceneReadyRun_invariant (s : SceneReadyState)
    (h : s.fireCount = if s.fired then 1 else 0) :
    ∀ es : List SceneReadyEvent,
      (sceneReadyRun s es).fireCount = if (sceneReadyRun s es).fired then 1 else 0
  | [] => h
  | e :: es =>
      sceneReadyRun_invariant (sceneReadyStep s e) (sceneReadyStep_invariant s h e) es

/-- C3: a scene-ready event block fires its `done` output at most once
per graph per scene lifetime (any sequence of happenings starting from
the fresh state yields a fire count of at most 1), and when the scene
already reports ready at the moment `start()` arms the block, the block
fires immediately rather than never. -/
theorem scene_ready_at_most_once (es : List SceneReadyEvent) (s : SceneReadyState)
    (hready : s.sceneReady = true) (hnot : s.fired = false) :
    (sceneReadyRun sceneReadyInit es).fireCount ≤ 1 ∧
    ((sceneReadyStep s .graphStart).fired = true ∧
      (sceneReadyStep s .graphStart).fireCount = s.fireCount + 1) := by
  refine ⟨?_, ?_⟩
  · have h := sceneReadyRun_invariant sceneReadyInit rfl es
    rw [h]
    split <;> simp
  · simp [sceneReadyStep, fireSceneReady, hready, hnot]

/-- Concrete run of `scene_ready_at_most_once`: the lifetime where the
scene becomes ready and the graph then starts (and later happenings
repeat) fires at most once, and starting while the scene is already
ready fires immediately. -/
theorem scene_ready_at_most_once_witness :
    (sceneReadyRun sceneReadyInit
        [.sceneBecomesReady, .graphStart, .sceneBecomesReady, .graphStart]).fireCount ≤ 1 ∧
    ((sceneReadyStep { sceneReady := true, armed := false, fired := false,
                       fireCount := 0 } .graphStart).fired = true ∧
      (sceneReadyStep { sceneReady := true, armed := false, fired := false,
                        fireCount := 0 } .graphStart).fireCount = 0 + 1) :=
  scene_ready_at_most_once
    [.sceneBecomesReady, .graphStart, .sceneBecomesReady, .graphStart]
    { sceneReady := true, armed := false, fired := false, fireCount := 0 }
    rfl rfl

/-! ## Error isolation during propagation -/

/-- Modelled from the spec: one dispatch branch of a notification — a
block activation that either succeeds or throws. -/
structure ActBlock where
  name : String
  throws : Bool
deriving Repr, DecidableEq

/-- Modelled from the spec: activating a block either completes or
throws an error carrying the offending block. -/
def activateBlock (b : ActBlock) : Except String String :=
  if b.throws then .error b.name else .ok b.name

/-- Modelled from the spec: dispatching one notification over its
branches — each branch is isolated, a thrown error is caught and
reported while the remaining branches are still notified (default
policy: continue).  Returns the names of the blocks that fired and the
names whose activation threw. -/
def dispatchBranches : List ActBlock → List String × List String
  | [] => ([], [])
  | b :: rest =>
      let tail := dispatchBranches rest
      match activateBlock b with
      | .ok n => (n :: tail.1, tail.2)
      | .error n => (tail.1, n :: tail.2)

/-- Modelled from the spec: a bubbling pick dispatch where some of the
bound blocks throw on activation — the chain is walked in bubbling
order and each firing is isolated. -/
def bubblingDispatchWithErrors (blocks : List FlowGraphMeshPickEventBlock)
    (throwing : List String) (picked : Mesh) : List String × List String :=
  dispatchBranches ((meshPickDispatch blocks picked).map fun b =>
    { name := b.name, throws := throwing.contains b.name })

/-- C5: a throwing activation is isolated to its own dispatch branch —
every branch of the notification is still attempted (fired and errored
branches together exhaust the dispatch list), every non-throwing block
still fires, and in a bubbling chain whose descendant-bound block
throws, the ancestor-bound block still fires. -/
theorem propagation_error_isolated :
    (∀ blocks : List ActBlock,
      (dispatchBranches blocks).1.length + (dispatchBranches blocks).2.length =
        blocks.length) ∧
    (∀ (blocks : List ActBlock) (b : ActBlock), b ∈ blocks → b.throws = false →
      b.name ∈ (dispatchBranches blocks).1) ∧
    bubblingDispatchWithErrors
        [{ name := "MeshPick1", targetMeshId := 1 },
         { name := "MeshPick3", targetMeshId := 3 }]
        ["MeshPick3"] (Mesh.child 3 (Mesh.child 2 (Mesh.root 1))) =
      (["MeshPick1"], ["MeshPick3"]) := by
  refine ⟨?_, ?_, by decide⟩
  · intro blocks
    induction blocks with
    | nil => rfl
    | cons b rest ih =>
        by_cases hb : b.throws <;>
          simp [dispatchBranches, activateBlock, hb, ← ih] <;> omega
  · intro blocks b hmem hnt
    induction blocks with
    | nil => cases hmem
    | cons a rest ih =>
        rcases List.mem_cons.mp hmem with hba | hrest
        · subst hba
          simp [dispatchBranches, activateBlock, hnt]
        · by_cases ha : a.throws
          · simpa [dispatchBranches, activateBlock, ha] using ih hrest
          · simp only [dispatchBranches, activateBlock, ha, if_neg]
            exact List.mem_cons_of_mem _ (ih hrest)

/-- Concrete run of `propagation_error_isolated`: in a two-branch
dispatch where the first branch throws, both branches are attempted and
the non-throwing block still fires. -/
theorem propagation_error_isolated_witness :
    (dispatchBranches [{ name := "A", throws := true },
                       { name := "B", throws := false }]).1.length +
      (dispatchBranches [{ name := "A", throws := true },
                         { name := "B", throws := false }]).2.length = 2 ∧
    "B" ∈ (dispatchBranches [{ name := "A", throws := true },
                             { name := "B", throws := false }]).1 :=
  ⟨propagation_error_isolated.1
      [{ name := "A", throws := true }, { name := "B", throws := false }],
   propagation_error_isolated.2.1
      [{ name := "A", throws := true }, { name := "B", throws := false }]
      { name := "B", throws := false } (by decide) rfl⟩

/-! ## Graph disposal -/

/-- Modelled from the spec: the flow-graph implementation is not among
the source files.  The disposal-relevant state of a graph: its armed
event blocks, its live contexts, whether it has been disposed, and a
count of teardown side effects performed. -/
structure FlowGraphState where
  armedEventBlocks : List String
  contexts : List Nat
  disposed : Bool
  teardownCount : Nat
deriving Repr, DecidableEq

/-- Modelled from the spec: `dispose()` deactivates all event blocks and
releases contexts; it must be safe to call multiple times, so a second
call on an already-disposed graph performs no teardown again. -/
def disposeGraph (g : FlowGraphState) : FlowGraphState :=
  if g.disposed then g
  else { armedEventBlocks := [], contexts := [], disposed := true,
         teardownCount := g.teardownCount + 1 }

/-- C7: disposing a graph a second time leaves all state exactly as the
first call left it and performs no teardown side effects again —
`disposeGraph` is idempotent. -/
theorem dispose_idempotent (g : FlowGraphState) :
    disposeGraph (disposeGraph g) = disposeGraph g := by
  by_cases h : g.disposed <;> simp [disposeGraph, h]

/-! ## MaterialFlags (embedded from the source) -/

/-- The backing fields of the `MaterialFlags` class (one private static
boolean per feature flag, all initialized to `true`), together with the
log of `AbstractEngine.MarkAllMaterialsAsDirty(flag)` calls the setters
perform. -/
structure MaterialFlagsState where
  _DiffuseTextureEnabled : Bool
  _BaseWeightTextureEnabled : Bool
  _BaseDiffuseRoughnessTextureEnabled : Bool
  _DetailTextureEnabled : Bool
  _DecalMapEnabled : Bool
  _AmbientTextureEnabled : Bool
  _OpacityTextureEnabled : Bool
  _ReflectionTextureEnabled : Bool
  _EmissiveTextureEnabled : Bool
  _SpecularTextureEnabled : Bool
  _BumpTextureEnabled : Bool
  _LightmapTextureEnabled : Bool
  _RefractionTextureEnabled : Bool
  _ColorGradingTextureEnabled : Bool
  _FresnelEnabled : Bool
  _ClearCoatTextureEnabled : Bool
  _ClearCoatBumpTextureEnabled : Bool
  _ClearCoatTintTextureEnabled : Bool
  _SheenTextureEnabled : Bool
  _AnisotropicTextureEnabled : Bool
  _ThicknessTextureEnabled : Bool
  _RefractionIntensityTextureEnabled : Bool
  _TranslucencyIntensityTextureEnabled : Bool
  _TranslucencyColorTextureEnabled : Bool
  _IridescenceTextureEnabled : Bool
  markDirtyCalls : List Nat
deriving Repr, DecidableEq

/-- One name per public getter/setter pair of `MaterialFlags`. -/
inductive MaterialFlagName where
  | DiffuseTextureEnabled
  | BaseWeightTextureEnabled
  | BaseDiffuseRoughnessTextureEnabled
  | DetailTextureEnabled
  | DecalMapEnabled
  | AmbientTextureEnabled
  | OpacityTextureEnabled
  | ReflectionTextureEnabled
  | EmissiveTextureEnabled
  | SpecularTextureEnabled
  | BumpTextureEnabled
  | LightmapTextureEnabled
  | RefractionTextureEnabled
  | ColorGradingTextureEnabled
  | FresnelEnabled
  | ClearCoatTextureEnabled
  | ClearCoatBumpTextureEnabled
  | ClearCoatTintTextureEnabled
  | SheenTextureEnabled
  | AnisotropicTextureEnabled
  | ThicknessTextureEnabled
  | RefractionIntensityTextureEnabled
  | TranslucencyIntensityTextureEnabled
  | TranslucencyColorTextureEnabled
  | IridescenceTextureEnabled
deriving Repr, DecidableEq

/-- `Constants.MATERIAL_TextureDirtyFlag`. -/
def MATERIAL_TextureDirtyFlag : Nat := 1

/-- `Constants.MATERIAL_FresnelDirtyFlag`. -/
def MATERIAL_FresnelDirtyFlag : Nat := 4

/-- The private backing field each setter compares against and writes
to: every setter of `MaterialFlags` reads/writes its own field. -/
def backingGet (s : MaterialFlagsState) : MaterialFlagName → Bool
  | .DiffuseTextureEnabled => s._DiffuseTextureEnabled
  | .BaseWeightTextureEnabled => s._BaseWeightTextureEnabled
  | .BaseDiffuseRoughnessTextureEnabled => s._BaseDiffuseRoughnessTextureEnabled
  | .DetailTextureEnabled => s._DetailTextureEnabled
  | .DecalMapEnabled => s._DecalMapEnabled
  | .AmbientTextureEnabled => s._AmbientTextureEnabled
  | .OpacityTextureEnabled => s._OpacityTextureEnabled
  | .ReflectionTextureEnabled => s._ReflectionTextureEnabled
  | .EmissiveTextureEnabled => s._EmissiveTextureEnabled
  | .SpecularTextureEnabled => s._SpecularTextureEnabled
  | .BumpTextureEnabled => s._BumpTextureEnabled
  | .LightmapTextureEnabled => s._LightmapTextureEnabled
  | .RefractionTextureEnabled => s._RefractionTextureEnabled
  | .ColorGradingTextureEnabled => s._ColorGradingTextureEnabled
  | .FresnelEnabled => s._FresnelEnabled
  | .ClearCoatTextureEnabled => s._ClearCoatTextureEnabled
  | .ClearCoatBumpTextureEnabled => s._ClearCoatBumpTextureEnabled
  | .ClearCoatTintTextureEnabled => s._ClearCoatTintTextureEnabled
  | .SheenTextureEnabled => s._SheenTextureEnabled
  | .AnisotropicTextureEnabled => s._AnisotropicTextureEnabled
  | .ThicknessTextureEnabled => s._ThicknessTextureEnabled
  | .RefractionIntensityTextureEnabled => s._RefractionIntensityTextureEnabled
  | .TranslucencyIntensityTextureEnabled => s._TranslucencyIntensityTextureEnabled
  | .TranslucencyColorTextureEnabled => s._TranslucencyColorTextureEnabled
  | .IridescenceTextureEnabled => s._IridescenceTextureEnabled

/-- Writing one backing field, leaving every other field unchanged. -/
def backingSet (s : MaterialFlagsState) (f : MaterialFlagName) (v : Bool) :
    MaterialFlagsState :=
  match f with
  | .DiffuseTextureEnabled => { s with _DiffuseTextureEnabled := v }
  | .BaseWeightTextureEnabled => { s with _BaseWeightTextureEnabled := v }
  | .BaseDiffuseRoughnessTextureEnabled =>
      { s with _BaseDiffuseRoughnessTextureEnabled := v }
  | .DetailTextureEnabled => { s with _DetailTextureEnabled := v }
  | .DecalMapEnabled => { s with _DecalMapEnabled := v }
  | .AmbientTextureEnabled => { s with _AmbientTextureEnabled := v }
  | .OpacityTextureEnabled => { s with _OpacityTextureEnabled := v }
  | .ReflectionTextureEnabled => { s with _ReflectionTextureEnabled := v }
  | .EmissiveTextureEnabled => { s with _EmissiveTextureEnabled := v }
  | .SpecularTextureEnabled => { s with _SpecularTextureEnabled := v }
  | .BumpTextureEnabled => { s with _BumpTextureEnabled := v }
  | .LightmapTextureEnabled => { s with _LightmapTextureEnabled := v }
  | .RefractionTextureEnabled => { s with _RefractionTextureEnabled := v }
  | .ColorGradingTextureEnabled => { s with _ColorGradingTextureEnabled := v }
  | .FresnelEnabled => { s with _FresnelEnabled := v }
  | .ClearCoatTextureEnabled => { s with _ClearCoatTextureEnabled := v }
  | .ClearCoatBumpTextureEnabled => { s with _ClearCoatBumpTextureEnabled := v }
  | .ClearCoatTintTextureEnabled => { s with _ClearCoatTintTextureEnabled := v }
  | .SheenTextureEnabled => { s with _SheenTextureEnabled := v }
  | .AnisotropicTextureEnabled => { s with _AnisotropicTextureEnabled := v }
  | .ThicknessTextureEnabled => { s with _ThicknessTextureEnabled := v }
  | .RefractionIntensityTextureEnabled =>
      { s with _RefractionIntensityTextureEnabled := v }
  | .TranslucencyIntensityTextureEnabled =>
      { s with _TranslucencyIntensityTextureEnabled := v }
  | .TranslucencyColorTextureEnabled =>
      { s with _TranslucencyColorTextureEnabled := v }
  | .IridescenceTextureEnabled => { s with _IridescenceTextureEnabled := v }

/-- The public getters of `MaterialFlags`: each returns its own backing
field, except `RefractionIntensityTextureEnabled`, whose getter in the
source reads `this._ThicknessTextureEnabled`. -/
def materialFlagGet (s : MaterialFlagsState) : MaterialFlagName → Bool
  | .RefractionIntensityTextureEnabled => s._ThicknessTextureEnabled
  | f => backingGet s f

/-- The dirty flag each setter passes to
`AbstractEngine.MarkAllMaterialsAsDirty`: `MATERIAL_FresnelDirtyFlag` for
`FresnelEnabled`, `MATERIAL_TextureDirtyFlag` for all others. -/
def dirtyFlagFor : MaterialFlagName → Nat
  | .FresnelEnabled => MATERIAL_FresnelDirtyFlag
  | _ => MATERIAL_TextureDirtyFlag

/-- The public setters of `MaterialFlags`: if the backing field already
holds the assigned value, return; otherwise write the field and call
`AbstractEngine.MarkAllMaterialsAsDirty` with the setter's dirty flag. -/
def materialFlagSet (s : MaterialFlagsState) (f : MaterialFlagName) (v : Bool) :
    MaterialFlagsState :=
  if backingGet s f = v then s
  else
    let s1 := backingSet s f v
    { s1 with markDirtyCalls := s1.markDirtyCalls ++ [dirtyFlagFor f] }

/-- The initial static state of `MaterialFlags`: every flag `true`, no
dirty call performed yet. -/
def initialMaterialFlags : MaterialFlagsState :=
  { _DiffuseTextureEnabled := true, _BaseWeightTextureEnabled := true
    _BaseDiffuseRoughnessTextureEnabled := true, _DetailTextureEnabled := true
    _DecalMapEnabled := true, _AmbientTextureEnabled := true
    _OpacityTextureEnabled := true, _ReflectionTextureEnabled := true
    _EmissiveTextureEnabled := true, _SpecularTextureEnabled := true
    _BumpTextureEnabled := true, _LightmapTextureEnabled := true
    _RefractionTextureEnabled := true, _ColorGradingTextureEnabled := true
    _FresnelEnabled := true, _ClearCoatTextureEnabled := true
    _ClearCoatBumpTextureEnabled := true, _ClearCoatTintTextureEnabled := true
    _SheenTextureEnabled := true, _AnisotropicTextureEnabled := true
    _ThicknessTextureEnabled := true, _RefractionIntensityTextureEnabled := true
    _TranslucencyIntensityTextureEnabled := true
    _TranslucencyColorTextureEnabled := true, _IridescenceTextureEnabled := true
    markDirtyCalls := [] }

theorem backingGet_update_calls (s : MaterialFlagsState) (f : MaterialFlagName)
    (l : List Nat) : backingGet { s with markDirtyCalls := l } f = backingGet s f := by
  cases f <;> rfl

theorem backingGet_backingSet_self (s : MaterialFlagsState) (f : MaterialFlagName)
    (v : Bool) : backingGet (backingSet s f v) f = v := by
  cases f <;> rfl

theorem backingGet_backingSet_other (s : MaterialFlagsState)
    (f g : MaterialFlagName) (v : Bool) (h : g ≠ f) :
    backingGet (backingSet s f v) g = backingGet s g := by
  cases f <;> cases g <;> first | rfl | exact absurd rfl h

theorem backingSet_calls (s : MaterialFlagsState) (f : MaterialFlagName)
    (v : Bool) : (backingSet s f v).markDirtyCalls = s.markDirtyCalls := by
  cases f <;> rfl

/-- C8 fails on the source: the getter of
`RefractionIntensityTextureEnabled` reads `this._ThicknessTextureEnabled`,
so with `ThicknessTextureEnabled` still `true`, assigning `false` to
`RefractionIntensityTextureEnabled` and reading it back returns `true`
even though the setter did store `false` in its own backing field — the
getter mirrors the thickness flag instead of its own. -/
theorem refraction_intensity_roundtrip_fails :
    materialFlagGet
        (materialFlagSet initialMaterialFlags
          MaterialFlagName.RefractionIntensityTextureEnabled false)
        MaterialFlagName.RefractionIntensityTextureEnabled = true ∧
    (materialFlagSet initialMaterialFlags
        MaterialFlagName.RefractionIntensityTextureEnabled
        false)._RefractionIntensityTextureEnabled = false ∧
    materialFlagGet
        (materialFlagSet initialMaterialFlags
          MaterialFlagName.RefractionIntensityTextureEnabled false)
        MaterialFlagName.RefractionIntensityTextureEnabled =
      (materialFlagSet initialMaterialFlags
          MaterialFlagName.RefractionIntensityTextureEnabled
          false)._ThicknessTextureEnabled := by
  decide

/-- C9: for every `MaterialFlags` setter, assigning the value its
backing field already holds is a no-op (the state, hence every flag
field and the dirty-call log, is unchanged); assigning a different value
writes that one backing field, leaves every other flag's backing field
unchanged, and calls `AbstractEngine.MarkAllMaterialsAsDirty` exactly
once, with the setter's dirty flag. -/
theorem material_flag_setter_effect (s : MaterialFlagsState)
    (f : MaterialFlagName) (v : Bool) :
    (backingGet s f = v → materialFlagSet s f v = s) ∧
    (backingGet s f ≠ v →
      backingGet (materialFlagSet s f v) f = v ∧
      (∀ g, g ≠ f → backingGet (materialFlagSet s f v) g = backingGet s g) ∧
      (materialFlagSet s f v).markDirtyCalls =
        s.markDirtyCalls ++ [dirtyFlagFor f]) := by
  constructor
  · intro h
    simp [materialFlagSet, h]
  · intro h
    refine ⟨?_, ?_, ?_⟩
    · simp only [materialFlagSet, if_neg h]
      rw [backingGet_update_calls, backingGet_backingSet_self]
    · intro g hg
      simp only [materialFlagSet, if_neg h]
      rw [backingGet_update_calls, backingGet_backingSet_other s f g v hg]
    · simp only [materialFlagSet, if_neg h]
      rw [backingSet_calls]

/-- Concrete run of `material_flag_setter_effect` on
`DiffuseTextureEnabled`: re-assigning `true` (the current value) changes
nothing; assigning `false` stores `false`, and appends exactly one
`MarkAllMaterialsAsDirty` call. -/
theorem material_flag_setter_effect_witness :
    (materialFlagSet initialMaterialFlags .DiffuseTextureEnabled true =
      initialMaterialFlags) ∧
    (backingGet (materialFlagSet initialMaterialFlags .DiffuseTextureEnabled false)
        .DiffuseTextureEnabled = false ∧
      (∀ g, g ≠ MaterialFlagName.DiffuseTextureEnabled →
        backingGet
            (materialFlagSet initialMaterialFlags .DiffuseTextureEnabled false) g =
          backingGet initialMaterialFlags g) ∧
      (materialFlagSet initialMaterialFlags
          .DiffuseTextureEnabled false).markDirtyCalls =
        initialMaterialFlags.markDirtyCalls ++
          [dirtyFlagFor .DiffuseTextureEnabled]) :=
  ⟨(material_flag_setter_effect initialMaterialFlags .DiffuseTextureEnabled true).1
      rfl,
   (material_flag_setter_effect initialMaterialFlags .DiffuseTextureEnabled false).2
      (by decide)⟩

/-! ## WebXRMotionControllerManager fallbacks (embedded from the source) -/

/-- The static `_Fallbacks` object of `WebXRMotionControllerManager`: a
map from profile id to the array of fallback profile ids registered for
it, modelled as an association list in insertion order. -/
abbrev FallbackTable : Type := List (String × List String)

/-- Property access `this._Fallbacks[profileId]`. -/
def fbLookup : FallbackTable → String → Option (List String)
  | [], _ => none
  | (k, fb) :: rest, p => if k = p then some fb else fbLookup rest p

/-- Overwriting the array stored under an existing key (the effect of
mutating the stored array in place). -/
def fbUpdate : FallbackTable → String → List String → FallbackTable
  | [], _, _ => []
  | (k, fb) :: rest, p, nfb =>
      if k = p then (k, nfb) :: rest else (k, fb) :: fbUpdate rest p nfb

/-- `RegisterFallbacksForProfileId`: if the profile already has an
entry, push the new fallbacks onto the stored array; otherwise store the
given array under the profile id. -/
def RegisterFallbacksForProfileId (t : FallbackTable) (profileId : String)
    (fallbacks : List String) : FallbackTable :=
  match fbLookup t profileId with
  | some existing => fbUpdate t profileId (existing ++ fallbacks)
  | none => t ++ [(profileId, fallbacks)]

/-- `FindFallbackWithProfileId`:
`const returnArray = this._Fallbacks[profileId] || [];` aliases the
stored array when the profile is registered, and
`returnArray.unshift(profileId)` then mutates that stored array in
place before returning it — so the call returns the table's (possibly
mutated) array together with the resulting table state. -/
def FindFallbackWithProfileId (t : FallbackTable) (profileId : String) :
    FallbackTable × List String :=
  match fbLookup t profileId with
  | some arr => (fbUpdate t profileId (profileId :: arr), profileId :: arr)
  | none => (t, [profileId])

/-- C10 as stated is false on the source: for a registered profile id
the returned array is the stored array itself, and `unshift` mutates
it. With only `htc-vive ↦ [generic-trigger-squeeze-touchpad]`
registered, the first call returns a 2-element array, the second call a
3-element array with `htc-vive` duplicated at the front, and the first
call already changed the registered fallback table. -/
theorem find_fallback_mutates_counterexample :
    (FindFallbackWithProfileId
        (FindFallbackWithProfileId
          (RegisterFallbacksForProfileId [] "htc-vive"
            ["generic-trigger-squeeze-touchpad"]) "htc-vive").1 "htc-vive").2 ≠
      (FindFallbackWithProfileId
        (RegisterFallbacksForProfileId [] "htc-vive"
          ["generic-trigger-squeeze-touchpad"]) "htc-vive").2 ∧
    (FindFallbackWithProfileId
        (RegisterFallbacksForProfileId [] "htc-vive"
          ["generic-trigger-squeeze-touchpad"]) "htc-vive").1 ≠
      RegisterFallbacksForProfileId [] "htc-vive"
        ["generic-trigger-squeeze-touchpad"] := by
  decide

/-- C10 amended: `FindFallbackWithProfileId` always returns an array
whose first element is `profileId`. When `profileId` has no registered
fallbacks the call leaves the table unmodified and returns exactly
`[profileId]`, so two successive calls agree. When `profileId` is
registered with stored array `arr`, the call returns `profileId :: arr`
and mutates the registered table, which now stores `profileId :: arr`
under `profileId` — so a second call returns an array with `profileId`
duplicated at the front. -/
theorem find_fallback_behaviour (t : FallbackTable) (profileId : String) :
    (FindFallbackWithProfileId t profileId).2.head? = some profileId ∧
    (fbLookup t profileId = none →
      FindFallbackWithProfileId t profileId = (t, [profileId])) ∧
    (∀ arr, fbLookup t profileId = some arr →
      (FindFallbackWithProfileId t profileId).2 = profileId :: arr ∧
      fbLookup (FindFallbackWithProfileId t profileId).1 profileId =
        some (profileId :: arr)) := by
  refine ⟨?_, ?_, ?_⟩
  · unfold FindFallbackWithProfileId
    cases h : fbLookup t profileId <;> simp
  · intro h
    simp [FindFallbackWithProfileId, h]
  · intro arr h
    refine ⟨by simp [FindFallbackWithProfileId, h], ?_⟩
    simp only [FindFallbackWithProfileId, h]
    induction t with
    | nil => simp [fbLookup] at h
    | cons e rest ih =>
        obtain ⟨k, fb⟩ := e
        by_cases hk : k = profileId
        · subst hk
          simp [fbUpdate, fbLookup]
        · rw [fbLookup, if_neg hk] at h
          rw [fbUpdate, if_neg hk, fbLookup, if_neg hk]
          exact ih h

/-- Concrete run of `find_fallback_behaviour`: on an empty table the
lookup misses, so the call returns `[profileId]` and leaves the table
alone; after registering one fallback for `htc-vive`, the call on
`htc-vive` returns the stored array with `htc-vive` prepended and the
table now stores that array. -/
theorem find_fallback_behaviour_witness :
    (FindFallbackWithProfileId ([] : FallbackTable) "oculus-touch").2.head? =
      some "oculus-touch" ∧
    FindFallbackWithProfileId ([] : FallbackTable) "oculus-touch" =
      (([] : FallbackTable), ["oculus-touch"]) ∧
    ((FindFallbackWithProfileId
        (RegisterFallbacksForProfileId [] "htc-vive"
          ["generic-trigger-squeeze-touchpad"]) "htc-vive").2 =
      "htc-vive" :: ["generic-trigger-squeeze-touchpad"] ∧
    fbLookup
        (FindFallbackWithProfileId
          (RegisterFallbacksForProfileId [] "htc-vive"
            ["generic-trigger-squeeze-touchpad"]) "htc-vive").1 "htc-vive" =
      some ("htc-vive" :: ["generic-trigger-squeeze-touchpad"])) :=
  ⟨(find_fallback_behaviour [] "oculus-touch").1,
   (find_fallback_behaviour [] "oculus-touch").2.1 rfl,
   (find_fallback_behaviour
      (RegisterFallbacksForProfileId [] "htc-vive"
        ["generic-trigger-squeeze-touchpad"]) "htc-vive").2.2
      ["generic-trigger-squeeze-touchpad"] (by decide)⟩
